import Mathlib

/-!
Verification development for the QuizBattle realtime room orchestrator
(backend/app/runtime*.py). The Python runtime is embedded shallowly:
pure helpers become Lean functions, stateful handlers become explicit
state transformers on a Room record, machine integers are Int (Python
ints are unbounded), randomness and wall-clock time are passed in as
explicit parameters, and sockets/timers are modelled by opaque ids /
deadline fields only (the spec's equivalences are stated modulo
sockets and timers).
-/

set_option maxRecDepth 16384

namespace QuizBattle

/-- Team literal from runtime_types.py (Team = Literal["A", "B"]). -/
inductive Team where
  | A
  | B
deriving DecidableEq, Repr

/-- Game mode literal from runtime_types.py. -/
inductive GameMode where
  | classic
  | ffa
  | chaos
deriving DecidableEq, Repr

/-- Phase literal from runtime_types.py. -/
inductive Phase where
  | lobby
  | teamReveal
  | captainVote
  | teamNaming
  | question
  | reveal
  | results
  | hostReconnect
  | manualPause
deriving DecidableEq, Repr

/-- Skip-request status literal from runtime_types.py. -/
inductive SkipRequestStatus where
  | idle
  | pending
  | rejected
deriving DecidableEq, Repr

/-- Question source literal from runtime_types.py. -/
inductive QuestionSource where
  | catalog
  | generated
deriving DecidableEq, Repr

/-- Difficulty mode literal from runtime_types.py. -/
inductive DifficultyMode where
  | easy
  | medium
  | hard
  | mixed
  | progressive
deriving DecidableEq, Repr

/-- QUESTION_TIME_MS from runtime_constants.py. -/
def QUESTION_TIME_MS : Int := 30000

/-- REVEAL_TIME_MS from runtime_constants.py. -/
def REVEAL_TIME_MS : Int := 4000

/-- SKIP_REVEAL_TIME_MS from runtime_constants.py. -/
def SKIP_REVEAL_TIME_MS : Int := 1800

/-- HOST_RECONNECT_WAIT_MS from runtime_constants.py. -/
def HOST_RECONNECT_WAIT_MS : Int := 30000

/-- BASE_CORRECT_POINTS from runtime_constants.py. -/
def BASE_CORRECT_POINTS : Int := 1

/-- MAX_PLAYERS from config.py (default of the MAX_PLAYERS env variable). -/
def MAX_PLAYERS : Nat := 20

/-- ROOM_CODE_CHARS from runtime_constants.py: the reduced room-code alphabet. -/
def ROOM_CODE_CHARS : List Char := "ABCDEFGHJKLMNPQRSTUVWXYZ23456789".toList

/-- calculate_speed_bonus from runtime_utils.py. The source compares the
float ratio safe_remaining / safe_total against the literals 0.67 and 0.34;
we embed the comparison over the rationals (100 * remaining against
67 * total and 34 * total). At the only total ever passed by the code,
QUESTION_TIME_MS = 30000, the thresholds 20100 and 10200 are exact in both
semantics, so the embedding agrees with the float code on every input the
program produces. -/
def calculate_speed_bonus (remaining_ms : Int) (question_time_ms : Int) : Int :=
  let safe_total := max 1 question_time_ms
  let safe_remaining := max 0 remaining_ms
  if 100 * safe_remaining ≥ 67 * safe_total then 2
  else if 100 * safe_remaining ≥ 34 * safe_total then 1
  else 0

/-- random_room_code from runtime_utils.py. The random.choice draws are
modelled by an explicit pick sequence; random.choice always returns an
in-range element, hence the modular index. -/
def random_room_code (pick : Nat → Nat) (length : Nat) : List Char :=
  (List.range (max 4 length)).map
    (fun i => ROOM_CODE_CHARS.getD (pick i % ROOM_CODE_CHARS.length) 'A')

/-- Room-id generation as invoked by QuizRuntime.create_room (runtime.py
line 310): random_room_code(6). -/
def create_room_code (pick : Nat → Nat) : List Char :=
  random_room_code pick 6

/-- QuizRuntime._mark_state_changed from runtime.py:
room.state_version = max(1, int(getattr(room, "state_version", 1) or 1) + 1).
The Python `or 1` turns a zero version into 1 before incrementing. -/
def mark_state_changed_version (v : Int) : Int :=
  max 1 ((if v = 0 then 1 else v) + 1)

/-- An answer submission record as stored in room.answer_submissions by the
submit-answer handler (runtime_message_handlers.py): selectedIndex and
answeredAt (both may be absent or non-int in the untyped dict, hence
Option). -/
structure Submission where
  selectedIndex : Option Int
  answeredAt : Option Int
deriving DecidableEq, Repr

/-- Points awarded to one FFA participant with a submission, following
finalize_question in runtime_question_flow.py (lines 38 to 104): a missing
selectedIndex is the skip path and scores 0; otherwise remaining_ms is
max(0, question_ends_at - answeredAt) when both are present and 0 otherwise,
and points are base (1 if correct else 0) plus speed bonus (only if
correct). -/
def ffa_points_awarded (correctIndex : Int) (question_ends_at : Option Int)
    (sub : Submission) : Int :=
  match sub.selectedIndex with
  | none => 0
  | some sel =>
    let remaining_ms : Int :=
      match question_ends_at, sub.answeredAt with
      | some e, some a => max 0 (e - a)
      | _, _ => 0
    let speed_bonus := if sel = correctIndex then calculate_speed_bonus remaining_ms QUESTION_TIME_MS else 0
    let base_points := if sel = correctIndex then BASE_CORRECT_POINTS else 0
    base_points + speed_bonus

/-- Last-n-elements slice, the Python list[-n:] idiom used by the bounded
histories (chat, question history, event history). -/
def takeLast {α : Type} (n : Nat) (l : List α) : List α :=
  l.drop (l.length - n)

/-- Lexicographic comparison of character lists by code point, the order
Python uses to compare and sort strings. -/
def strLt : List Char → List Char → Bool
  | [], [] => false
  | [], _ :: _ => true
  | _ :: _, [] => false
  | a :: as, b :: bs =>
    if a.toNat < b.toNat then true
    else if b.toNat < a.toNat then false
    else strLt as bs

/-- Sorted insertion without duplicates, used to give Python sets of strings
a canonical list representation. -/
def insertSortedStr (x : String) : List String → List String
  | [] => [x]
  | y :: ys =>
    if x = y then y :: ys
    else if strLt x.data y.data then x :: y :: ys
    else y :: insertSortedStr x ys

/-- Canonical representation of a Python set of strings: sorted and without
duplicates. Building a set and listing it sorted (the sorted(...) calls in
runtime_snapshot.py) is this function. -/
def sortDedupStr (l : List String) : List String :=
  l.foldr insertSortedStr []

/-- Comma join, the Python ", ".join idiom. -/
def joinComma : List String → String
  | [] => ""
  | [x] => x
  | x :: xs => x ++ ", " ++ joinComma xs

/-- Dictionary lookup over an insertion-ordered association list (the
embedding of a Python dict). -/
def lookupAssoc {α : Type} (l : List (String × α)) (k : String) : Option α :=
  (l.find? (fun p => p.1 = k)).map (fun p => p.2)

/-- Python str whitespace test used by str.strip (the characters Python
strips by default; the runtime only ever strips spaces, tabs and newlines). -/
def isPySpace (c : Char) : Bool :=
  c = ' ' ∨ c = '\t' ∨ c = '\n' ∨ c = '\r'

/-- Python str.strip(): drop leading and trailing whitespace. Embedded over
the character list so it computes inside the kernel. -/
def py_strip (s : String) : String :=
  ⟨((s.data.dropWhile isPySpace).reverse.dropWhile isPySpace).reverse⟩

/-- Python s[:n] character slicing. -/
def py_take (n : Nat) (s : String) : String :=
  ⟨s.data.take n⟩

/-- Python str.lower() on the ASCII range (the case-insensitive comparisons
in the runtime are over catalog topic spellings; Char.toLower agrees with
Python there). -/
def py_lower (s : String) : String :=
  ⟨s.data.map Char.toLower⟩

/-- sanitize_team_name from runtime_utils.py:
str(raw or "").strip()[:32], falling back when empty. -/
def sanitize_team_name (raw : String) (fallback : String) : String :=
  let trimmed := py_take 32 (py_strip raw)
  if trimmed = "" then fallback else trimmed

/-- normalize_team_name from runtime_utils.py: name.strip().lower(). -/
def normalize_team_name (name : String) : String :=
  py_lower (py_strip name)

/-- normalize_player_name from runtime_utils.py:
str(name or "").strip().lower(). -/
def normalize_player_name (name : Option String) : String :=
  py_lower (py_strip (name.getD ""))

/-- clamp_question_count from runtime_utils.py: max(5, min(7, round(num)))
(round is the identity on ints). -/
def clamp_question_count (n : Int) : Int :=
  max 5 (min 7 n)

/-- normalize_topic from runtime_utils.py with allow_custom=False (the form
used on the snapshot path): strip, truncate to 80, case-insensitive match
against the supported-topic list returning the canonical spelling, else the
default topic. The supported list and default come from the question catalog
JSON, which is data outside the runtime source, so they are parameters. -/
def normalize_topic (supported : List String) (default_topic : String) (raw : String) : String :=
  let r := py_take 80 (py_strip raw)
  if r = "" then default_topic
  else
    match supported.find? (fun t => py_lower t = py_lower r) with
    | some t => t
    | none => default_topic

/-- A pair of per-team values, the embedding of the dicts keyed by the two
TEAM_KEYS "A" and "B". -/
structure TeamPair (α : Type) where
  A : α
  B : α
deriving DecidableEq, Repr

/-- Visibility string of a team, as compared against chat visibility tags. -/
def teamVisStr : Team → String
  | .A => "A"
  | .B => "B"

/-- Question record as produced by question provisioning and stored in
room.questions. -/
structure Question where
  id : String
  text : String
  options : List String
  correctIndex : Int
  difficulty : String
deriving DecidableEq, Repr

/-- The classic-mode active answer record stored by the submit-answer
handler. -/
structure ActiveAnswer where
  selectedIndex : Int
  byPeerId : String
  byName : String
deriving DecidableEq, Repr

/-- A chat message dict. Messages without a kind key are embedded with
kind = "" (the str(message.get("kind") or "") normalization). -/
structure ChatMessage where
  id : String
  msg_from : String
  name : String
  text : String
  timestamp : Int
  visibility : String
  kind : String
deriving DecidableEq, Repr

/-- The paused_state dict written by pause-for-host-reconnect and manual
pause. -/
structure PausedState where
  phase : Phase
  remainingMs : Int
deriving DecidableEq, Repr

/-- A last_reveal record. The reveal dicts carry many mode-specific fields;
the embedding keeps the one field the phase flow inspects (skippedByHost)
plus the mode tag, and treats the rest as an opaque ordered key-value
payload, which both snapshot functions pass through untouched. -/
structure Reveal where
  mode : GameMode
  skippedByHost : Bool
  payload : List (String × Int)
deriving DecidableEq, Repr

/-- A question-history or event-history entry; the snapshot functions pass
these dicts through untouched, so the embedding keeps the common fields and
an opaque payload. -/
structure HistoryEntry where
  id : String
  timestamp : Int
  kind : String
  text : String
  payload : List (String × String)
deriving DecidableEq, Repr

/-- PlayerConnection from runtime_types.py; the websocket is an opaque
handle id. -/
structure Player where
  peer_id : String
  name : String
  team : Option Team
  is_host : Bool
  websocket : Nat
  is_spectator : Bool
  identity_key : Option String
  player_token : Option String
  is_captain : Bool
  avatar : Option String
  auth_user_id : Option Int
  profile_frame : Option String
  mascot_skin_cat : Option String
  mascot_skin_dog : Option String
  victory_effect_front : Option String
  victory_effect_back : Option String
deriving DecidableEq, Repr

/-- RoomRuntime from runtime_types.py, minus the asyncio lock and the timer
task map (timers are modelled by their deadline fields and explicit delay
arguments). Python dicts are insertion-ordered association lists; Python
sets of strings are canonical sorted lists. -/
structure Room where
  room_id : String
  topic : String
  difficulty_mode : DifficultyMode
  game_mode : GameMode
  question_count : Int
  questions : List Question
  players : List Player
  player_tokens : List (String × String)
  host_peer_id : String
  host_token_hash : String
  room_password_hash : String
  is_password_protected : Bool
  question_source : QuestionSource
  phase : Phase
  current_question_index : Int
  active_team : Team
  question_ends_at : Option Int
  team_reveal_ends_at : Option Int
  captain_vote_ends_at : Option Int
  team_naming_ends_at : Option Int
  reveal_ends_at : Option Int
  host_reconnect_ends_at : Option Int
  disconnected_host_name : Option String
  disconnected_host_expected_name : Option String
  paused_state : Option PausedState
  manual_pause_by_name : Option String
  active_answer : Option ActiveAnswer
  answer_submissions : List (String × Submission)
  skip_requesters : List String
  skip_request_status : SkipRequestStatus
  skip_request_message_id : Option String
  last_reveal : Option Reveal
  scores : TeamPair Int
  player_scores : List (String × Int)
  player_stats : List (String × List (String × Int))
  question_history : List HistoryEntry
  event_history : List HistoryEntry
  chat : List ChatMessage
  chat_moderation_strikes : List (String × Int)
  captains : TeamPair (Option String)
  captain_votes : TeamPair (List (String × Int))
  captain_ballots : TeamPair (List (String × String))
  captain_vote_ready_teams : TeamPair Bool
  team_naming_ready_teams : TeamPair Bool
  team_names : TeamPair String
  used_team_names : List String
  results_recorded : Bool
  state_version : Int

/-- Field-wise extensionality for Room, proved by double case split. -/
theorem Room_ext {x y : Room}
    (e1 : x.room_id = y.room_id)
    (e2 : x.topic = y.topic)
    (e3 : x.difficulty_mode = y.difficulty_mode)
    (e4 : x.game_mode = y.game_mode)
    (e5 : x.question_count = y.question_count)
    (e6 : x.questions = y.questions)
    (e7 : x.players = y.players)
    (e8 : x.player_tokens = y.player_tokens)
    (e9 : x.host_peer_id = y.host_peer_id)
    (e10 : x.host_token_hash = y.host_token_hash)
    (e11 : x.room_password_hash = y.room_password_hash)
    (e12 : x.is_password_protected = y.is_password_protected)
    (e13 : x.question_source = y.question_source)
    (e14 : x.phase = y.phase)
    (e15 : x.current_question_index = y.current_question_index)
    (e16 : x.active_team = y.active_team)
    (e17 : x.question_ends_at = y.question_ends_at)
    (e18 : x.team_reveal_ends_at = y.team_reveal_ends_at)
    (e19 : x.captain_vote_ends_at = y.captain_vote_ends_at)
    (e20 : x.team_naming_ends_at = y.team_naming_ends_at)
    (e21 : x.reveal_ends_at = y.reveal_ends_at)
    (e22 : x.host_reconnect_ends_at = y.host_reconnect_ends_at)
    (e23 : x.disconnected_host_name = y.disconnected_host_name)
    (e24 : x.disconnected_host_expected_name = y.disconnected_host_expected_name)
    (e25 : x.paused_state = y.paused_state)
    (e26 : x.manual_pause_by_name = y.manual_pause_by_name)
    (e27 : x.active_answer = y.active_answer)
    (e28 : x.answer_submissions = y.answer_submissions)
    (e29 : x.skip_requesters = y.skip_requesters)
    (e30 : x.skip_request_status = y.skip_request_status)
    (e31 : x.skip_request_message_id = y.skip_request_message_id)
    (e32 : x.last_reveal = y.last_reveal)
    (e33 : x.scores = y.scores)
    (e34 : x.player_scores = y.player_scores)
    (e35 : x.player_stats = y.player_stats)
    (e36 : x.question_history = y.question_history)
    (e37 : x.event_history = y.event_history)
    (e38 : x.chat = y.chat)
    (e39 : x.chat_moderation_strikes = y.chat_moderation_strikes)
    (e40 : x.captains = y.captains)
    (e41 : x.captain_votes = y.captain_votes)
    (e42 : x.captain_ballots = y.captain_ballots)
    (e43 : x.captain_vote_ready_teams = y.captain_vote_ready_teams)
    (e44 : x.team_naming_ready_teams = y.team_naming_ready_teams)
    (e45 : x.team_names = y.team_names)
    (e46 : x.used_team_names = y.used_team_names)
    (e47 : x.results_recorded = y.results_recorded)
    (e48 : x.state_version = y.state_version) :
    x = y := by
  cases x
  cases y
  simp_all

/-- QuizRuntime._mark_state_changed lifted to the room state. -/
def mark_state_changed (room : Room) : Room :=
  { room with state_version := mark_state_changed_version room.state_version }

/-- QuizRuntime._broadcast_and_persist from runtime.py: bump the state
version, then broadcast and persist (which do not change room state). -/
def broadcast_and_persist (room : Room) : Room :=
  mark_state_changed room

/-- Deadline field of a phase, the selector used by
get_phase_remaining_ms_for_pause and schedule_phase_timer in
runtime_host_reconnect.py. Phases without a deadline yield none. -/
def phase_ends_at (room : Room) : Phase → Option Int
  | .question => room.question_ends_at
  | .teamReveal => room.team_reveal_ends_at
  | .captainVote => room.captain_vote_ends_at
  | .teamNaming => room.team_naming_ends_at
  | .reveal => room.reveal_ends_at
  | _ => none

/-- get_phase_remaining_ms_for_pause from runtime_host_reconnect.py:
max(0, (ends_at or 0) - now) for the five deadline phases, else 0. -/
def get_phase_remaining_ms_for_pause (now : Int) (room : Room) (phase : Phase) : Int :=
  match phase with
  | .question => max 0 ((room.question_ends_at.getD 0) - now)
  | .teamReveal => max 0 ((room.team_reveal_ends_at.getD 0) - now)
  | .captainVote => max 0 ((room.captain_vote_ends_at.getD 0) - now)
  | .teamNaming => max 0 ((room.team_naming_ends_at.getD 0) - now)
  | .reveal => max 0 ((room.reveal_ends_at.getD 0) - now)
  | _ => 0

/-- schedule_phase_timer from runtime_host_reconnect.py, restricted to its
effect on room state: delay = max(120, remaining_ms), the matching deadline
field is set to now + delay, and the one-shot timer task (whose callback is
the matching phase handler) is armed. -/
def schedule_phase_timer (now : Int) (room : Room) (phase : Phase) (remaining_ms : Int) : Room :=
  let delay := max 120 remaining_ms
  let ends_at := now + delay
  match phase with
  | .question => { room with question_ends_at := some ends_at }
  | .teamReveal => { room with team_reveal_ends_at := some ends_at }
  | .captainVote => { room with captain_vote_ends_at := some ends_at }
  | .teamNaming => { room with team_naming_ends_at := some ends_at }
  | .reveal => { room with reveal_ends_at := some ends_at }
  | _ => room

/-- should_pause_on_host_disconnect from runtime_host_reconnect.py. -/
def should_pause_on_host_disconnect (phase : Phase) : Bool :=
  match phase with
  | .lobby => true
  | .teamReveal => true
  | .captainVote => true
  | .teamNaming => true
  | .question => true
  | .reveal => true
  | _ => false

/-- pause_for_host_reconnect from runtime_host_reconnect.py: on a pausable
phase, record the remaining ms of the current phase in paused_state, clear
all timers and deadline fields, enter host-reconnect with a 30 s deadline,
remember the disconnected host name, broadcast, and arm the host-reconnect
timer. Returns the same bool as the source. -/
def pause_for_host_reconnect (now : Int) (host_name : Option String) (room : Room) :
    Bool × Room :=
  if ¬ should_pause_on_host_disconnect room.phase then (false, room)
  else
    let previous_phase := room.phase
    let remaining_ms := get_phase_remaining_ms_for_pause now room previous_phase
    let display_name :=
      match host_name with
      | some n => if n = "" then "Ведущий" else n
      | none => "Ведущий"
    let paused : Room :=
      { room with
        paused_state := some { phase := previous_phase, remainingMs := remaining_ms }
        phase := .hostReconnect
        question_ends_at := none
        team_reveal_ends_at := none
        captain_vote_ends_at := none
        team_naming_ends_at := none
        reveal_ends_at := none
        host_reconnect_ends_at := some (now + HOST_RECONNECT_WAIT_MS)
        manual_pause_by_name := none
        disconnected_host_name := some display_name
        disconnected_host_expected_name := some (normalize_player_name host_name) }
    (true, broadcast_and_persist paused)

/-- resume_after_host_reconnect from runtime_host_reconnect.py: with no
paused_state just clear the reconnect bookkeeping; otherwise restore the
paused phase, clear every deadline, and rearm the paused phase timer with
the stored remaining ms via schedule_phase_timer. In the typed embedding
the stored phase is always one of the valid phase literals, so the source
validation that falls back to lobby is the identity. -/
def resume_after_host_reconnect (now : Int) (room : Room) : Room :=
  match room.paused_state with
  | none =>
    broadcast_and_persist
      { room with
        host_reconnect_ends_at := none
        disconnected_host_name := none
        disconnected_host_expected_name := none }
  | some snapshot =>
    let snapshot_phase := snapshot.phase
    let snapshot_remaining_ms := snapshot.remainingMs
    let cleared : Room :=
      { room with
        phase := snapshot_phase
        host_reconnect_ends_at := none
        disconnected_host_name := none
        disconnected_host_expected_name := none
        paused_state := none
        manual_pause_by_name := none
        question_ends_at := none
        team_reveal_ends_at := none
        captain_vote_ends_at := none
        team_naming_ends_at := none
        reveal_ends_at := none }
    broadcast_and_persist (schedule_phase_timer now cleared snapshot_phase snapshot_remaining_ms)

/-- append_result_event from runtime_results.py: append an event entry
(text truncated to 280) and keep the last 300. The fresh random id and the
timestamp are explicit parameters. -/
def append_result_event (now : Int) (event_id : String) (kind : String) (text : String)
    (room : Room) : Room :=
  { room with
    event_history :=
      takeLast 300 (room.event_history ++
        [{ id := event_id, timestamp := now, kind := kind, text := py_take 280 text,
           payload := [] }]) }

/-- Modelled from the spec: QuizRuntime._schedule_persist_game_result is
called on every transition to results (runtime_phase_flow.py and
runtime_question_flow.py) but is not defined anywhere in the repository
source provided; the spec describes it as handing the completed game result
to the external append-completed-game-result capability, which has no
effect on room state. -/
def schedule_persist_game_result (room : Room) : Room :=
  room

/-- QuizRuntime._start_question_phase from runtime.py: enter the question
phase with a fresh 30 s deadline, clear the other deadlines and the
per-question answer and skip-request state, arm the question timer, and
broadcast. -/
def start_question_phase (now : Int) (room : Room) : Room :=
  broadcast_and_persist
    { room with
      phase := .question
      question_ends_at := some (now + QUESTION_TIME_MS)
      team_reveal_ends_at := none
      captain_vote_ends_at := none
      team_naming_ends_at := none
      active_answer := none
      answer_submissions := []
      skip_requesters := []
      skip_request_status := .idle
      skip_request_message_id := none
      last_reveal := none
      reveal_ends_at := none }

/-- The end-of-game branch shared by the advance_after_reveal cases in
runtime_phase_flow.py: enter results, clear question state, append the
game-over event, schedule the game-result persistence, broadcast. -/
def finish_to_results (now : Int) (event_id : String) (room : Room) : Room :=
  let room :=
    { room with
      phase := .results
      question_ends_at := none
      active_answer := none
      answer_submissions := [] }
  let room := append_result_event now event_id "phase"
    "Игра завершена. Переход к финальной статистике." room
  broadcast_and_persist (schedule_persist_game_result room)

/-- advance_after_reveal from runtime_phase_flow.py (lines 16 to 113). The
timestamp and the fresh event id are explicit parameters; timer
cancellation has no state effect beyond the cleared reveal deadline. -/
def advance_after_reveal (now : Int) (event_id : String) (room : Room) : Room :=
  if room.phase ≠ .reveal then room
  else
    let room := { room with reveal_ends_at := none }
    match room.game_mode with
    | .ffa =>
      if room.current_question_index ≥ room.question_count - 1 then
        finish_to_results now event_id room
      else
        start_question_phase now
          { room with
            current_question_index := room.current_question_index + 1
            chat := []
            last_reveal := none
            active_answer := none
            answer_submissions := [] }
    | .chaos =>
      if room.current_question_index ≥ room.question_count - 1 then
        finish_to_results now event_id room
      else
        start_question_phase now
          { room with
            current_question_index := room.current_question_index + 1
            chat := []
            last_reveal := none
            active_answer := none
            answer_submissions := []
            active_team := .A }
    | .classic =>
      let skipped_by_host :=
        match room.last_reveal with
        | some r => r.skippedByHost
        | none => false
      if skipped_by_host then
        if room.current_question_index ≥ room.question_count - 1 then
          finish_to_results now event_id room
        else
          start_question_phase now
            { room with
              current_question_index := room.current_question_index + 1
              chat := []
              active_answer := none
              answer_submissions := []
              last_reveal := none
              active_team := .A }
      else if room.active_team = .A then
        start_question_phase now
          { room with
            chat := []
            active_answer := none
            answer_submissions := []
            last_reveal := none
            active_team := .B }
      else if room.current_question_index ≥ room.question_count - 1 then
        finish_to_results now event_id room
      else
        start_question_phase now
          { room with
            current_question_index := room.current_question_index + 1
            chat := []
            active_team := .A
            answer_submissions := [] }

/-- Replace the first chat message with the given id, the update loop of
upsert_skip_request_host_message. -/
def updateFirstMessage (chat : List ChatMessage) (mid : String)
    (f : ChatMessage → ChatMessage) : List ChatMessage :=
  match chat with
  | [] => []
  | m :: ms => if m.id = mid then f m :: ms else m :: updateFirstMessage ms mid f

/-- upsert_skip_request_host_message from runtime_state_sync.py. The fresh
message id and the timestamp are explicit parameters; non_host_players is
computed from the room as in QuizRuntime._upsert_skip_request_host_message. -/
def upsert_skip_request_host_message (now : Int) (new_id : String) (room : Room) : Room :=
  if room.phase ≠ .question then
    { room with
      skip_requesters := []
      skip_request_status := .idle
      skip_request_message_id := none }
  else
    let non_host_players := room.players.filter (fun p => ¬ p.is_host)
    let requesters :=
      (non_host_players.filter (fun p => p.peer_id ∈ room.skip_requesters)).map
        (fun p => p.name)
    let status :=
      if room.skip_request_status = .pending ∧ requesters = [] then SkipRequestStatus.idle
      else room.skip_request_status
    let room := { room with skip_request_status := status }
    let text :=
      if status = .rejected then "Запрос на пропуск вопроса отклонён."
      else if status = .pending then
        match requesters with
        | [] => ""
        | [r] => "Участник " ++ r ++ " попросил пропустить вопрос."
        | rs => "Участники " ++ joinComma rs ++ " попросили пропустить вопрос."
      else ""
    if text = "" then
      match room.skip_request_message_id with
      | some mid =>
        { room with
          chat := room.chat.filter (fun m => m.id ≠ mid)
          skip_request_message_id := none }
      | none => { room with skip_request_message_id := none }
    else
      let existing_updated :=
        match room.skip_request_message_id with
        | some mid => room.chat.any (fun m => m.id = mid)
        | none => false
      if existing_updated then
        match room.skip_request_message_id with
        | some mid =>
          { room with
            chat := updateFirstMessage room.chat mid (fun m =>
              { m with
                text := text
                timestamp := now
                visibility := "all"
                kind := "skip-request" }) }
        | none => room
      else
        let room :=
          { room with
            skip_request_message_id := some new_id
            chat := room.chat ++
              [{ id := new_id, msg_from := "system", name := "Система", text := text,
                 timestamp := now, visibility := "all", kind := "skip-request" }] }
        if room.chat.length > 100 then
          let trimmed := takeLast 100 room.chat
          if ¬ trimmed.any (fun m => m.id = new_id) then
            { room with chat := trimmed, skip_request_message_id := none }
          else
            { room with chat := trimmed }
        else room

/-- The request-skip-question branch of handle_message in
runtime_message_handlers.py (lines 203 to 216): guarded on question phase,
non-host non-spectator sender, a not-yet-rejected status, and a sender not
already in the requester set; then the sender is added, the status becomes
pending, the pinned system message is upserted, and the state is broadcast. -/
def handle_request_skip_question (now : Int) (new_id : String) (room : Room)
    (player : Player) : Room :=
  if room.phase ≠ .question then room
  else if player.is_host ∨ player.is_spectator then room
  else if room.skip_request_status = .rejected then room
  else if player.peer_id ∈ room.skip_requesters then room
  else
    let room :=
      { room with
        skip_requesters := insertSortedStr player.peer_id room.skip_requesters
        skip_request_status := .pending }
    broadcast_and_persist (upsert_skip_request_host_message now new_id room)

/-- can_player_see_message from runtime_chat_visibility.py, branch for
branch. A missing visibility tag normalizes to "all" (the str(... or "all")
idiom, where the empty string is falsy). -/
def can_player_see_message (player : Player) (room : Room) (message : ChatMessage) : Bool :=
  let visibility := if message.visibility = "" then "all" else message.visibility
  let kind := message.kind
  if kind = "presence" ∧ visibility = "all" then true
  else if kind = "skip-request" ∧ visibility = "all" then true
  else if visibility = "host" then player.is_host || player.is_spectator
  else if room.game_mode = .ffa ∧ room.phase = .question then
    if player.is_host || player.is_spectator then true
    else room.answer_submissions.any (fun kv => kv.1 = player.peer_id)
  else if room.phase = .manualPause then true
  else if player.is_host || player.is_spectator then true
  else if room.game_mode = .ffa then true
  else if room.game_mode = .chaos then
    decide (visibility = "all") ||
      (match player.team with
       | some t => decide (teamVisStr t = visibility)
       | none => false)
  else if room.phase = .question then
    if player.team ≠ some room.active_team then false
    else decide (visibility = "all") || decide (visibility = teamVisStr room.active_team)
  else if visibility = "all" then true
  else
    match player.team with
    | some t => decide (teamVisStr t = visibility)
    | none => false

/-- QuizRuntime._reset_captain_state from runtime.py. -/
def reset_captain_state (room : Room) : Room :=
  { room with
    captain_votes := { A := [], B := [] }
    captain_ballots := { A := [], B := [] }
    captains := { A := none, B := none }
    captain_vote_ready_teams := { A := false, B := false }
    team_naming_ready_teams := { A := false, B := false }
    players := room.players.map (fun p => { p with is_captain := false }) }

/-- QuizRuntime._append_system_chat_message from runtime.py: append a
system chat entry (text truncated to 280), keep the last 100, then append
the same text to the event history. The two fresh random ids and the
timestamp are explicit parameters. -/
def append_system_chat_message (now : Int) (msg_id : String) (event_id : String)
    (text : String) (kind : String) (room : Room) : Room :=
  let room :=
    { room with
      chat :=
        takeLast 100 (room.chat ++
          [{ id := msg_id, msg_from := "system", name := "Система",
             text := py_take 280 text, timestamp := now, visibility := "all",
             kind := kind }]) }
  append_result_event now event_id kind text room

/-- Modelled from the spec: QuizRuntime._cleanup_generated_questions_file
is called at the start of reset_game (runtime_phase_flow.py line 325) but
is not defined anywhere in the repository source provided; the spec keeps
question provisioning external to the core, so removing an on-disk
generated-question artifact has no effect on the modelled room state. -/
def cleanup_generated_questions_file (room : Room) : Room :=
  room

/-- reset_game from runtime_phase_flow.py (lines 319 to 367): clear timers,
regenerate catalog questions (the fresh create_mock_questions draw is the
new_questions parameter), return every gameplay field to its lobby default,
reset captain state and team names, clear the team assignment and spectator
flag of every non-host player, optionally append a system message, and
broadcast. -/
def reset_game (new_questions : List Question) (now : Int) (msg_id : String)
    (event_id : String) (system_message : Option String) (room : Room) : Room :=
  let room := cleanup_generated_questions_file room
  let room :=
    if room.question_source = .catalog then { room with questions := new_questions }
    else room
  let room :=
    { room with
      phase := .lobby
      current_question_index := -1
      active_team := .A
      question_ends_at := none
      team_reveal_ends_at := none
      captain_vote_ends_at := none
      team_naming_ends_at := none
      reveal_ends_at := none
      host_reconnect_ends_at := none
      disconnected_host_name := none
      disconnected_host_expected_name := none
      paused_state := none
      manual_pause_by_name := none
      active_answer := none
      answer_submissions := []
      skip_requesters := []
      skip_request_status := .idle
      skip_request_message_id := none
      chat := []
      last_reveal := none
      scores := { A := 0, B := 0 }
      player_scores := []
      player_stats := []
      question_history := []
      event_history := []
      chat_moderation_strikes := []
      results_recorded := false }
  let room := reset_captain_state room
  let room := { room with team_names := { A := "Команда A", B := "Команда B" } }
  let room :=
    { room with
      players := room.players.map
        (fun p => if ¬ p.is_host then { p with is_spectator := false, team := none } else p) }
  let room :=
    match system_message with
    | some text => append_system_chat_message now msg_id event_id text "system" room
    | none => room
  broadcast_and_persist room

/-- The new-game branch of handle_message in runtime_message_handlers.py
(lines 239 to 243): non-host senders are ignored; the host triggers
reset_game with no system message, with no guard on the current phase. -/
def handle_new_game (new_questions : List Question) (now : Int) (msg_id : String)
    (event_id : String) (room : Room) (player : Player) : Room :=
  if ¬ player.is_host then room
  else reset_game new_questions now msg_id event_id none room

/-- The connected frame fields sent on successful admission
(runtime.py handle_websocket). -/
structure ConnectedFrame where
  peerId : String
  roomId : String
  isHost : Bool
  isSpectator : Bool
  assignedTeam : Option Team
  playerToken : Option String
deriving DecidableEq, Repr

/-- Outcome of the locked admission section of handle_websocket: a typed
rejection, a handoff (the old socket is closed with the recorded code and
the connected frame is sent to the new socket), or a fresh admission. -/
inductive AdmitOutcome where
  | rejected (code : String)
  | handoff (closed_ws : Nat) (close_code : Int) (frame : ConnectedFrame)
  | accepted (frame : ConnectedFrame)
deriving DecidableEq, Repr

/-- The request data reaching the locked admission section of
handle_websocket: the already-parsed and normalized join payload plus the
resolved auth attributes, the pre-generated fresh peer id, and the new
socket handle. -/
structure JoinCtx where
  requested_name : String
  host_token : String
  player_token : Option String
  room_password : String
  identity_key : Option String
  auth_user_id : Option Int
  avatar : Option String
  profile_frame : Option String
  mascot_cat : Option String
  mascot_dog : Option String
  victory_front : Option String
  victory_back : Option String
  fresh_peer_id : String
  ws : Nat
deriving DecidableEq, Repr

/-- Dictionary lookup in room.players (runtime.py room.players.get). -/
def find_player (room : Room) (pid : String) : Option Player :=
  room.players.find? (fun p => p.peer_id = pid)

/-- Duplicate detection by player token (runtime.py lines 531 to 535). -/
def duplicate_by_token (room : Room) (ctx : JoinCtx) : Option Player :=
  match ctx.player_token with
  | none => none
  | some t =>
    match lookupAssoc room.player_tokens t with
    | none => none
    | some pid => find_player room pid

/-- Duplicate detection by identity key (runtime.py lines 537 to 546). -/
def duplicate_by_identity (room : Room) (ctx : JoinCtx) : Option Player :=
  match ctx.identity_key with
  | none => none
  | some k => room.players.find? (fun p => p.identity_key = some k)

/-- The duplicate_by_token or duplicate_by_identity choice
(runtime.py line 548). -/
def find_duplicate_player (room : Room) (ctx : JoinCtx) : Option Player :=
  match duplicate_by_token room ctx with
  | some p => some p
  | none => duplicate_by_identity room ctx

/-- The locked admission section of QuizRuntime.handle_websocket
(runtime.py lines 530 to 728). Parameters abstract the effects that are
external to the room state: hash_fn is sha256 hex (_hash_secret); uniquify
is _make_unique_player_name (its result only lands in the display-name
field); fresh_token is the final draw of the _generate_secret retry loop,
which by construction is not an existing player token;
refresh_captain_progress is the _refresh_captain_vote_progress plus
_schedule_single_member_auto_captain maintenance applied when a new player
lands in a classic captain-vote phase. -/
def handle_join_locked (hash_fn : String → String)
    (uniquify : Room → String → Option String → String)
    (fresh_token : String) (refresh_captain_progress : Room → Room) (now : Int)
    (room : Room) (ctx : JoinCtx) : AdmitOutcome × Room :=
  let requested_host : Bool := ctx.host_token ≠ ""
  match find_duplicate_player room ctx with
  | some dup =>
    if requested_host ≠ dup.is_host then
      (.rejected "ACCOUNT_ALREADY_IN_ROOM", room)
    else
      let updated : Player :=
        { dup with
          websocket := ctx.ws
          name := uniquify room ctx.requested_name (some dup.peer_id)
          identity_key := ctx.identity_key
          auth_user_id := ctx.auth_user_id
          avatar := ctx.avatar
          profile_frame := ctx.profile_frame
          mascot_skin_cat := ctx.mascot_cat
          mascot_skin_dog := ctx.mascot_dog
          victory_effect_front := ctx.victory_front
          victory_effect_back := ctx.victory_back }
      let room :=
        { room with
          players := room.players.map (fun p => if p.peer_id = dup.peer_id then updated else p) }
      let frame : ConnectedFrame :=
        { peerId := dup.peer_id
          roomId := room.room_id
          isHost := dup.is_host
          isSpectator := dup.is_spectator
          assignedTeam := if room.phase ≠ .lobby then dup.team else none
          playerToken := dup.player_token }
      let should_resume :=
        dup.is_host ∧ room.phase = .hostReconnect ∧ room.host_reconnect_ends_at ≠ none
      let room :=
        if should_resume then resume_after_host_reconnect now room else room
      (.handoff dup.websocket 4002 frame, room)
  | none =>
    if room.players.length ≥ MAX_PLAYERS then
      (.rejected "ROOM_FULL", room)
    else if requested_host ∧
        (room.host_token_hash = "" ∨ hash_fn ctx.host_token ≠ room.host_token_hash) then
      (.rejected "HOST_TOKEN_INVALID", room)
    else if ¬ requested_host ∧ room.room_password_hash ≠ "" ∧ ctx.room_password = "" then
      (.rejected "ROOM_PASSWORD_REQUIRED", room)
    else if ¬ requested_host ∧ room.room_password_hash ≠ "" ∧
        hash_fn ctx.room_password ≠ room.room_password_hash then
      (.rejected "ROOM_PASSWORD_INVALID", room)
    else
      let is_host := requested_host
      let effective_player_token : Option String :=
        if is_host then none
        else
          some
            (match ctx.player_token with
             | some t => if (lookupAssoc room.player_tokens t).isSome then fresh_token else t
             | none => fresh_token)
      let room :=
        if is_host then
          { room with
            host_peer_id := ctx.fresh_peer_id
            players := room.players.map
              (fun p => { p with is_host := false, is_spectator := false }) }
        else
          { room with
            player_tokens :=
              room.player_tokens ++ [((effective_player_token.getD ""), ctx.fresh_peer_id)] }
      let is_paused_lobby : Bool :=
        decide (room.phase = .hostReconnect) &&
          (match room.paused_state with
           | some ps => decide (ps.phase = .lobby)
           | none => false)
      let is_spectator : Bool :=
        if is_host then false
        else if room.phase = .lobby ∨ is_paused_lobby then false
        else true
      let assigned_team : Option Team := none
      let new_player : Player :=
        { peer_id := ctx.fresh_peer_id
          name := uniquify room ctx.requested_name none
          team := assigned_team
          is_host := is_host
          websocket := ctx.ws
          is_spectator := is_spectator
          identity_key := ctx.identity_key
          player_token := effective_player_token
          is_captain := false
          avatar := ctx.avatar
          auth_user_id := ctx.auth_user_id
          profile_frame := ctx.profile_frame
          mascot_skin_cat := ctx.mascot_cat
          mascot_skin_dog := ctx.mascot_dog
          victory_effect_front := ctx.victory_front
          victory_effect_back := ctx.victory_back }
      let room := { room with players := room.players ++ [new_player] }
      let room :=
        if room.game_mode = .classic ∧ room.phase = .captainVote then
          refresh_captain_progress room
        else room
      let should_resume :=
        is_host ∧ room.phase = .hostReconnect ∧ room.host_reconnect_ends_at ≠ none
      let frame : ConnectedFrame :=
        { peerId := ctx.fresh_peer_id
          roomId := room.room_id
          isHost := is_host
          isSpectator := is_spectator
          assignedTeam := if room.phase ≠ .lobby then assigned_team else none
          playerToken := effective_player_token }
      let room :=
        if should_resume then resume_after_host_reconnect now room
        else broadcast_and_persist room
      (.accepted frame, room)

/-- One entry of the players payload included in a serialized snapshot
(runtime_snapshot.py serialize_snapshot; apply_snapshot never reads it). -/
structure PlayerSnapshotEntry where
  peerId : String
  name : String
  team : Option Team
  isHost : Bool
  isSpectator : Bool
  isCaptain : Bool
  avatar : Option String
deriving DecidableEq, Repr

/-- The stateJson dict produced by serialize_snapshot in
runtime_snapshot.py, with each key as a typed field. -/
structure Snapshot where
  stateVersion : Int
  lastEventId : Int
  deadlineEpochMs : Option Int
  topic : String
  difficultyMode : DifficultyMode
  gameMode : GameMode
  questionCount : Int
  questions : List Question
  phase : Phase
  currentQuestionIndex : Int
  activeTeam : Team
  questionEndsAt : Option Int
  teamRevealEndsAt : Option Int
  captainVoteEndsAt : Option Int
  teamNamingEndsAt : Option Int
  revealEndsAt : Option Int
  hostReconnectEndsAt : Option Int
  hostTokenHash : String
  roomPasswordHash : String
  disconnectedHostName : Option String
  disconnectedHostExpectedName : Option String
  pausedState : Option PausedState
  manualPauseByName : Option String
  activeAnswer : Option ActiveAnswer
  answerSubmissions : List (String × Submission)
  skipRequesters : List String
  skipRequestStatus : SkipRequestStatus
  skipRequestMessageId : Option String
  lastReveal : Option Reveal
  scores : TeamPair Int
  playerScores : List (String × Int)
  playerStats : List (String × List (String × Int))
  questionHistory : List HistoryEntry
  eventHistory : List HistoryEntry
  chat : List ChatMessage
  chatModerationStrikes : List (String × Int)
  captains : TeamPair (Option String)
  captainVotes : TeamPair (List (String × Int))
  captainBallots : TeamPair (List (String × String))
  captainVoteReadyTeams : TeamPair Bool
  teamNamingReadyTeams : TeamPair Bool
  teamNames : TeamPair String
  usedTeamNames : List String
  players : List PlayerSnapshotEntry

/-- phase_deadline_epoch_ms from runtime_snapshot.py. -/
def phase_deadline_epoch_ms (room : Room) : Option Int :=
  match room.phase with
  | .question => room.question_ends_at
  | .teamReveal => room.team_reveal_ends_at
  | .captainVote => room.captain_vote_ends_at
  | .teamNaming => room.team_naming_ends_at
  | .reveal => room.reveal_ends_at
  | .hostReconnect => room.host_reconnect_ends_at
  | _ => none

/-- serialize_snapshot from runtime_snapshot.py. Python sets are listed
sorted; the state version is normalized through max(1, sv or 1) exactly as
in the source. -/
def serialize_snapshot (room : Room) : Snapshot :=
  { stateVersion := max 1 (if room.state_version = 0 then 1 else room.state_version)
    lastEventId := (room.event_history.length : Int)
    deadlineEpochMs := phase_deadline_epoch_ms room
    topic := room.topic
    difficultyMode := room.difficulty_mode
    gameMode := room.game_mode
    questionCount := room.question_count
    questions := room.questions
    phase := room.phase
    currentQuestionIndex := room.current_question_index
    activeTeam := room.active_team
    questionEndsAt := room.question_ends_at
    teamRevealEndsAt := room.team_reveal_ends_at
    captainVoteEndsAt := room.captain_vote_ends_at
    teamNamingEndsAt := room.team_naming_ends_at
    revealEndsAt := room.reveal_ends_at
    hostReconnectEndsAt := room.host_reconnect_ends_at
    hostTokenHash := room.host_token_hash
    roomPasswordHash := room.room_password_hash
    disconnectedHostName := room.disconnected_host_name
    disconnectedHostExpectedName := room.disconnected_host_expected_name
    pausedState := room.paused_state
    manualPauseByName := room.manual_pause_by_name
    activeAnswer := room.active_answer
    answerSubmissions := room.answer_submissions
    skipRequesters := sortDedupStr room.skip_requesters
    skipRequestStatus := room.skip_request_status
    skipRequestMessageId := room.skip_request_message_id
    lastReveal := room.last_reveal
    scores := room.scores
    playerScores := room.player_scores
    playerStats := room.player_stats
    questionHistory := room.question_history
    eventHistory := room.event_history
    chat := room.chat
    chatModerationStrikes := room.chat_moderation_strikes
    captains := room.captains
    captainVotes := room.captain_votes
    captainBallots := room.captain_ballots
    captainVoteReadyTeams := room.captain_vote_ready_teams
    teamNamingReadyTeams := room.team_naming_ready_teams
    teamNames := room.team_names
    usedTeamNames := sortDedupStr room.used_team_names
    players := room.players.map (fun p =>
      { peerId := p.peer_id
        name := p.name
        team := p.team
        isHost := p.is_host
        isSpectator := p.is_spectator
        isCaptain := p.is_captain
        avatar := p.avatar }) }

/-- The str(captains.get(...)) if captains.get(...) else None normalization
from apply_snapshot: an empty string is falsy and becomes None. -/
def optNonempty (o : Option String) : Option String :=
  match o with
  | some s => if s = "" then none else some s
  | none => none

/-- sanitize_vote_map from runtime_snapshot.py restricted to typed input:
every count is clamped to max(0, count). -/
def sanitize_vote_map (l : List (String × Int)) : List (String × Int) :=
  l.map (fun kv => (kv.1, max 0 kv.2))

/-- apply_snapshot from runtime_snapshot.py, applied to a typed state dict.
gen_questions is the create_mock_questions draw used when the snapshot
carries no questions. In the typed embedding the valid-literal checks of
the source (phase, active team, difficulty, game mode, skip status) are
identities, and the int(...) coercions are identities on Int fields;
every normalization the source performs on typed values (clamping,
truncation, falsy fallbacks, set rebuilding) is kept. -/
def apply_snapshot (supported : List String) (default_topic : String)
    (gen_questions : List Question) (room : Room) (state : Snapshot) : Room :=
  { room with
    topic := normalize_topic supported default_topic state.topic
    difficulty_mode := state.difficultyMode
    game_mode := state.gameMode
    question_count := clamp_question_count state.questionCount
    questions := if state.questions ≠ [] then state.questions else gen_questions
    phase := state.phase
    current_question_index := state.currentQuestionIndex
    active_team := state.activeTeam
    question_ends_at := state.questionEndsAt
    team_reveal_ends_at := state.teamRevealEndsAt
    captain_vote_ends_at := state.captainVoteEndsAt
    team_naming_ends_at := state.teamNamingEndsAt
    reveal_ends_at := state.revealEndsAt
    host_reconnect_ends_at := state.hostReconnectEndsAt
    disconnected_host_name := state.disconnectedHostName
    disconnected_host_expected_name := state.disconnectedHostExpectedName
    host_token_hash :=
      if state.hostTokenHash ≠ "" then state.hostTokenHash
      else if room.host_token_hash ≠ "" then room.host_token_hash
      else ""
    room_password_hash :=
      if state.roomPasswordHash ≠ "" then state.roomPasswordHash
      else if room.room_password_hash ≠ "" then room.room_password_hash
      else ""
    paused_state := state.pausedState
    manual_pause_by_name := state.manualPauseByName
    active_answer := state.activeAnswer
    answer_submissions := state.answerSubmissions
    skip_requesters := sortDedupStr (state.skipRequesters.filter (fun p => p ≠ ""))
    skip_request_status := state.skipRequestStatus
    skip_request_message_id := state.skipRequestMessageId
    last_reveal := state.lastReveal
    scores := state.scores
    player_scores := state.playerScores
    player_stats := state.playerStats
    question_history := takeLast 200 state.questionHistory
    event_history := takeLast 300 state.eventHistory
    chat := takeLast 100 state.chat
    chat_moderation_strikes :=
      state.chatModerationStrikes.map (fun kv => (kv.1, max 0 kv.2))
    captains := { A := optNonempty state.captains.A, B := optNonempty state.captains.B }
    captain_votes :=
      { A := sanitize_vote_map state.captainVotes.A
        B := sanitize_vote_map state.captainVotes.B }
    captain_ballots := state.captainBallots
    captain_vote_ready_teams := state.captainVoteReadyTeams
    team_naming_ready_teams := state.teamNamingReadyTeams
    team_names :=
      { A := sanitize_team_name state.teamNames.A "Команда A"
        B := sanitize_team_name state.teamNames.B "Команда B" }
    used_team_names :=
      sortDedupStr
        ((state.usedTeamNames.filter (fun n => py_strip n ≠ "")).map normalize_team_name)
    state_version := max 1 state.stateVersion }

/-- C1: in an FFA finalization, a participant whose submitted selectedIndex
equals the correct index is awarded 1 + bonus(r) points with
r = max(0, question_ends_at - answeredAt) and bonus = 2 when r is at least
0.67 of the 30000 ms question time (r at least 20100), 1 when at least 0.34
of it (r at least 10200), else 0; a participant whose selectedIndex differs
is awarded 0 points. -/
theorem ffa_points_law (c e a sel : Int) :
    ffa_points_awarded c (some e) { selectedIndex := some sel, answeredAt := some a } =
      if sel = c then
        1 + (if max 0 (e - a) ≥ 20100 then 2
             else if max 0 (e - a) ≥ 10200 then 1 else 0)
      else 0 := by
  unfold ffa_points_awarded calculate_speed_bonus QUESTION_TIME_MS BASE_CORRECT_POINTS
  by_cases h : sel = c
  · simp only [h, if_pos rfl, if_true]
    split_ifs <;> omega
  · simp [h]

/-- C2 (amended): every room id generated by QuizRuntime.create_room is a
6-character string whose characters are all drawn from the reduced alphabet
ABCDEFGHJKLMNPQRSTUVWXYZ23456789. -/
theorem create_room_code_spec (pick : Nat → Nat) :
    (create_room_code pick).length = 6 ∧
      ∀ c ∈ create_room_code pick, c ∈ ROOM_CODE_CHARS := by
  constructor
  · simp [create_room_code, random_room_code]
  · intro c hc
    simp only [create_room_code, random_room_code, List.mem_map, List.mem_range] at hc
    obtain ⟨i, _, rfl⟩ := hc
    have hlt : pick i % ROOM_CODE_CHARS.length < ROOM_CODE_CHARS.length :=
      Nat.mod_lt _ (by decide)
    rw [List.getD_eq_getElem ROOM_CODE_CHARS 'A' hlt]
    exact List.getElem_mem hlt

/-- Closed instance of the C2 theorem at a concrete pick sequence. -/
theorem create_room_code_spec_witness :
    (create_room_code (fun _ => 0)).length = 6 ∧ 'A' ∈ ROOM_CODE_CHARS :=
  ⟨(create_room_code_spec (fun _ => 0)).1,
   (create_room_code_spec (fun _ => 0)).2 'A' (by decide)⟩

/-- C2 (counterexample): the claim that generated room ids have 8 characters
fails; at any pick sequence the generated code has 6 characters. -/
theorem create_room_code_not_eight : (create_room_code (fun _ => 0)).length ≠ 8 := by
  decide

/-- C8: the state version is a positive integer that strictly increases on
every broadcast-and-persist (which invokes mark-state-changed), so the
state-sync frames sent to one connection carry strictly increasing, hence
non-decreasing, state versions. -/
theorem state_version_strictly_increases (room : Room) :
    room.state_version < (broadcast_and_persist room).state_version ∧
      1 ≤ (broadcast_and_persist room).state_version := by
  unfold broadcast_and_persist mark_state_changed mark_state_changed_version
  constructor
  · simp only
    split_ifs <;> omega
  · simp only
    split_ifs <;> omega

/-- A concrete non-host, non-spectator player used to instantiate theorems
with hypotheses on concrete inputs. -/
def samplePlayer : Player :=
  { peer_id := "peer-1"
    name := "Игрок"
    team := some .A
    is_host := false
    websocket := 1
    is_spectator := false
    identity_key := some "acct:7"
    player_token := some "token-abcdef12345"
    is_captain := false
    avatar := none
    auth_user_id := some 7
    profile_frame := none
    mascot_skin_cat := none
    mascot_skin_dog := none
    victory_effect_front := none
    victory_effect_back := none }

/-- A concrete host player. -/
def sampleHost : Player :=
  { samplePlayer with
    peer_id := "peer-host"
    name := "Ведущий1"
    team := none
    is_host := true
    websocket := 2
    identity_key := some "acct:1"
    player_token := none
    auth_user_id := some 1 }

/-- A concrete lobby room used to instantiate theorems with hypotheses on
concrete inputs. -/
def sampleRoom : Room :=
  { room_id := "ABCD23"
    topic := "geo"
    difficulty_mode := .mixed
    game_mode := .classic
    question_count := 5
    questions := [{ id := "1", text := "q", options := ["a", "b"], correctIndex := 0,
                    difficulty := "easy" }]
    players := [sampleHost, samplePlayer]
    player_tokens := [("token-abcdef12345", "peer-1")]
    host_peer_id := "peer-host"
    host_token_hash := "hash"
    room_password_hash := ""
    is_password_protected := false
    question_source := .catalog
    phase := .lobby
    current_question_index := -1
    active_team := .A
    question_ends_at := none
    team_reveal_ends_at := none
    captain_vote_ends_at := none
    team_naming_ends_at := none
    reveal_ends_at := none
    host_reconnect_ends_at := none
    disconnected_host_name := none
    disconnected_host_expected_name := none
    paused_state := none
    manual_pause_by_name := none
    active_answer := none
    answer_submissions := []
    skip_requesters := []
    skip_request_status := .idle
    skip_request_message_id := none
    last_reveal := none
    scores := { A := 0, B := 0 }
    player_scores := []
    player_stats := []
    question_history := []
    event_history := []
    chat := []
    chat_moderation_strikes := []
    captains := { A := none, B := none }
    captain_votes := { A := [], B := [] }
    captain_ballots := { A := [], B := [] }
    captain_vote_ready_teams := { A := false, B := false }
    team_naming_ready_teams := { A := false, B := false }
    team_names := { A := "Команда A", B := "Команда B" }
    used_team_names := []
    results_recorded := false
    state_version := 1 }

/-- C5: once the host has rejected a skip request during a question, every
further request-skip-question frame leaves the room state completely
unchanged: the handler returns before adding a requester, changing the
status or touching the chat. -/
theorem skip_request_rejected_noop (now : Int) (new_id : String) (room : Room)
    (player : Player) (h : room.skip_request_status = .rejected) :
    handle_request_skip_question now new_id room player = room := by
  by_cases h1 : room.phase ≠ .question
  · simp [handle_request_skip_question, h1]
  · by_cases h2 : player.is_host ∨ player.is_spectator
    · simp [handle_request_skip_question, h1, h2]
    · simp [handle_request_skip_question, h1, h2, h]

/-- Closed instance of the C5 theorem at a concrete rejected-state room. -/
theorem skip_request_rejected_noop_witness :
    handle_request_skip_question 5000 "msg-2"
        { sampleRoom with phase := .question, skip_request_status := .rejected }
        samplePlayer =
      { sampleRoom with phase := .question, skip_request_status := .rejected } :=
  skip_request_rejected_noop 5000 "msg-2"
    { sampleRoom with phase := .question, skip_request_status := .rejected }
    samplePlayer rfl

/-- C6 (counterexample): during manual-pause a host-visibility chat message
is not visible to a regular team player, so the claim that every message is
visible to every viewer in manual-pause fails. -/
theorem manual_pause_host_message_hidden :
    can_player_see_message samplePlayer
      { sampleRoom with phase := .manualPause }
      { id := "m1", msg_from := "peer-host", name := "Ведущий1", text := "секрет",
        timestamp := 1, visibility := "host", kind := "" } = false := by
  decide

/-- C6 (amended): while the phase is manual-pause, every chat message whose
visibility tag is not host is visible to every viewer; a host-visibility
message remains visible exactly to hosts and spectators. -/
theorem manual_pause_visibility (room : Room) (player : Player) (message : ChatMessage)
    (hphase : room.phase = .manualPause) :
    can_player_see_message player room message =
      (if (if message.visibility = "" then "all" else message.visibility) = "host" then
        player.is_host || player.is_spectator
      else true) := by
  unfold can_player_see_message
  split_ifs with h1 h2 h3 h4 h5 <;> simp_all

/-- Closed instance of the C6 theorem at a concrete manual-pause room. -/
theorem manual_pause_visibility_witness :
    can_player_see_message samplePlayer { sampleRoom with phase := .manualPause }
        { id := "m2", msg_from := "peer-host", name := "Ведущий1", text := "пауза",
          timestamp := 1, visibility := "all", kind := "" } =
      (if (if "all" = "" then "all" else "all") = "host" then
        samplePlayer.is_host || samplePlayer.is_spectator
      else true) :=
  manual_pause_visibility { sampleRoom with phase := .manualPause } samplePlayer
    { id := "m2", msg_from := "peer-host", name := "Ведущий1", text := "пауза",
      timestamp := 1, visibility := "all", kind := "" } rfl

/-- C3: in classic mode, when the reveal phase ends without a host skip:
with active team A the question index is unchanged, the active team becomes
B, and the question phase restarts on the same question; with active team B
before the last question the index increments by exactly 1 and the active
team returns to A; with active team B on the last question the phase
becomes results. -/
theorem classic_reveal_advance (now : Int) (event_id : String) (room : Room)
    (hphase : room.phase = .reveal) (hmode : room.game_mode = .classic)
    (hskip : ∀ r, room.last_reveal = some r → r.skippedByHost = false) :
    (room.active_team = .A →
      (advance_after_reveal now event_id room).current_question_index =
          room.current_question_index ∧
        (advance_after_reveal now event_id room).active_team = .B ∧
        (advance_after_reveal now event_id room).phase = .question) ∧
      (room.active_team = .B → room.current_question_index < room.question_count - 1 →
        (advance_after_reveal now event_id room).current_question_index =
            room.current_question_index + 1 ∧
          (advance_after_reveal now event_id room).active_team = .A ∧
          (advance_after_reveal now event_id room).phase = .question) ∧
      (room.active_team = .B → room.current_question_index ≥ room.question_count - 1 →
        (advance_after_reveal now event_id room).phase = .results) := by
  have hskip2 :
      (match room.last_reveal with
        | some r => r.skippedByHost
        | none => false) = false := by
    cases hlr : room.last_reveal with
    | none => rfl
    | some r => exact hskip r hlr
  refine ⟨?_, ?_, ?_⟩
  · intro hteam
    simp [advance_after_reveal, hphase, hmode, hskip2, hteam, start_question_phase,
      broadcast_and_persist, mark_state_changed]
  · intro hteam hidx
    have hidx2 : ¬ room.current_question_index ≥ room.question_count - 1 := by omega
    simp [advance_after_reveal, hphase, hmode, hskip2, hteam, hidx2, start_question_phase,
      broadcast_and_persist, mark_state_changed]
  · intro hteam hidx
    simp [advance_after_reveal, hphase, hmode, hskip2, hteam, hidx, finish_to_results,
      schedule_persist_game_result, append_result_event, broadcast_and_persist,
      mark_state_changed]

/-- A concrete classic room in the reveal phase with active team A on the
first question. -/
def revealRoomA : Room :=
  { sampleRoom with
    phase := .reveal
    current_question_index := 0
    active_team := .A }

/-- A concrete classic room in the reveal phase with active team B on the
last question. -/
def revealRoomB : Room :=
  { sampleRoom with
    phase := .reveal
    current_question_index := 4
    active_team := .B }

/-- Closed instance of the C3 theorem at a concrete classic reveal room. -/
theorem classic_reveal_advance_witness :
    ((advance_after_reveal 7000 "evt-1" revealRoomA).current_question_index = 0 ∧
      (advance_after_reveal 7000 "evt-1" revealRoomA).active_team = .B ∧
      (advance_after_reveal 7000 "evt-1" revealRoomA).phase = .question) ∧
    (advance_after_reveal 7000 "evt-1" revealRoomB).phase = .results := by
  constructor
  · exact (classic_reveal_advance 7000 "evt-1" revealRoomA rfl rfl
      (fun r hr => by cases hr)).1 rfl
  · exact ((classic_reveal_advance 7000 "evt-1" revealRoomB rfl rfl
      (fun r hr => by cases hr)).2).2 rfl (by decide)

/-- C4: on a host disconnect in a phase carrying a deadline, the pause
records paused_state.remainingMs = max(0, deadline - now), the phase
becomes host-reconnect with deadline now + 30000 ms, and a later resume
restores the same phase with its timer and deadline rearmed for exactly the
recorded remaining ms, subject only to the 120 ms minimum timer delay. -/
theorem host_pause_preserves_remaining (now now2 : Int) (host_name : Option String)
    (room : Room) (p : Phase) (dl : Int)
    (hphase : room.phase = p) (hdl : phase_ends_at room p = some dl) :
    (pause_for_host_reconnect now host_name room).1 = true ∧
      (pause_for_host_reconnect now host_name room).2.paused_state =
        some { phase := p, remainingMs := max 0 (dl - now) } ∧
      (pause_for_host_reconnect now host_name room).2.phase = .hostReconnect ∧
      (pause_for_host_reconnect now host_name room).2.host_reconnect_ends_at =
        some (now + 30000) ∧
      (resume_after_host_reconnect now2
          (pause_for_host_reconnect now host_name room).2).phase = p ∧
      phase_ends_at
          (resume_after_host_reconnect now2
            (pause_for_host_reconnect now host_name room).2) p =
        some (now2 + max 120 (max 0 (dl - now))) := by
  cases p with
  | lobby => exact Option.noConfusion hdl
  | results => exact Option.noConfusion hdl
  | hostReconnect => exact Option.noConfusion hdl
  | manualPause => exact Option.noConfusion hdl
  | question =>
    simp only [phase_ends_at] at hdl
    refine ⟨?_, ?_, ?_, ?_, ?_, ?_⟩ <;>
      simp [pause_for_host_reconnect, resume_after_host_reconnect, schedule_phase_timer,
        get_phase_remaining_ms_for_pause, should_pause_on_host_disconnect,
        broadcast_and_persist, mark_state_changed, phase_ends_at, hphase,
        hdl, HOST_RECONNECT_WAIT_MS]
  | teamReveal =>
    simp only [phase_ends_at] at hdl
    refine ⟨?_, ?_, ?_, ?_, ?_, ?_⟩ <;>
      simp [pause_for_host_reconnect, resume_after_host_reconnect, schedule_phase_timer,
        get_phase_remaining_ms_for_pause, should_pause_on_host_disconnect,
        broadcast_and_persist, mark_state_changed, phase_ends_at, hphase,
        hdl, HOST_RECONNECT_WAIT_MS]
  | captainVote =>
    simp only [phase_ends_at] at hdl
    refine ⟨?_, ?_, ?_, ?_, ?_, ?_⟩ <;>
      simp [pause_for_host_reconnect, resume_after_host_reconnect, schedule_phase_timer,
        get_phase_remaining_ms_for_pause, should_pause_on_host_disconnect,
        broadcast_and_persist, mark_state_changed, phase_ends_at, hphase,
        hdl, HOST_RECONNECT_WAIT_MS]
  | teamNaming =>
    simp only [phase_ends_at] at hdl
    refine ⟨?_, ?_, ?_, ?_, ?_, ?_⟩ <;>
      simp [pause_for_host_reconnect, resume_after_host_reconnect, schedule_phase_timer,
        get_phase_remaining_ms_for_pause, should_pause_on_host_disconnect,
        broadcast_and_persist, mark_state_changed, phase_ends_at, hphase,
        hdl, HOST_RECONNECT_WAIT_MS]
  | reveal =>
    simp only [phase_ends_at] at hdl
    refine ⟨?_, ?_, ?_, ?_, ?_, ?_⟩ <;>
      simp [pause_for_host_reconnect, resume_after_host_reconnect, schedule_phase_timer,
        get_phase_remaining_ms_for_pause, should_pause_on_host_disconnect,
        broadcast_and_persist, mark_state_changed, phase_ends_at, hphase,
        hdl, HOST_RECONNECT_WAIT_MS]

/-- A concrete classic room mid-question with a live deadline. -/
def questionRoom : Room :=
  { sampleRoom with
    phase := .question
    current_question_index := 0
    question_ends_at := some 42500 }

/-- Closed instance of the C4 theorem: a host disconnect at 30000 ms with
the question deadline at 42500 ms records 12500 ms and a resume at 60000 ms
rearms the question deadline at 72500 ms. -/
theorem host_pause_preserves_remaining_witness :
    (pause_for_host_reconnect 30000 (some "Ведущий1") questionRoom).1 = true ∧
      (pause_for_host_reconnect 30000 (some "Ведущий1") questionRoom).2.paused_state =
        some { phase := .question, remainingMs := max 0 ((42500 : Int) - 30000) } ∧
      (pause_for_host_reconnect 30000 (some "Ведущий1") questionRoom).2.phase =
        .hostReconnect ∧
      (pause_for_host_reconnect 30000 (some "Ведущий1") questionRoom).2.host_reconnect_ends_at =
        some (30000 + 30000) ∧
      (resume_after_host_reconnect 60000
          (pause_for_host_reconnect 30000 (some "Ведущий1") questionRoom).2).phase =
        .question ∧
      phase_ends_at
          (resume_after_host_reconnect 60000
            (pause_for_host_reconnect 30000 (some "Ведущий1") questionRoom).2) .question =
        some (60000 + max 120 (max 0 ((42500 : Int) - 30000))) :=
  host_pause_preserves_remaining 30000 60000 (some "Ведущий1") questionRoom .question
    42500 rfl rfl

/-- C10: a new-game frame is a no-op for any non-host sender, while for the
host it resets the room to the lobby phase in every phase without any phase
guard, clearing deadlines, scores, histories, the pause context, and the
team assignment and spectator flag of every non-host player. -/
theorem new_game_resets_in_any_phase (new_questions : List Question) (now : Int)
    (msg_id event_id : String) (room : Room) (player : Player) :
    (player.is_host = false →
      handle_new_game new_questions now msg_id event_id room player = room) ∧
      (player.is_host = true →
        (handle_new_game new_questions now msg_id event_id room player).phase = .lobby ∧
        (handle_new_game new_questions now msg_id event_id room player).current_question_index
          = -1 ∧
        (handle_new_game new_questions now msg_id event_id room player).scores =
          { A := 0, B := 0 } ∧
        (handle_new_game new_questions now msg_id event_id room player).player_scores = [] ∧
        (handle_new_game new_questions now msg_id event_id room player).player_stats = [] ∧
        (handle_new_game new_questions now msg_id event_id room player).question_history = [] ∧
        (handle_new_game new_questions now msg_id event_id room player).event_history = [] ∧
        (handle_new_game new_questions now msg_id event_id room player).chat = [] ∧
        (handle_new_game new_questions now msg_id event_id room player).paused_state = none ∧
        (handle_new_game new_questions now msg_id event_id room player).manual_pause_by_name
          = none ∧
        (handle_new_game new_questions now msg_id event_id room player).question_ends_at
          = none ∧
        (handle_new_game new_questions now msg_id event_id room player).reveal_ends_at
          = none ∧
        (handle_new_game new_questions now msg_id event_id room player).host_reconnect_ends_at
          = none ∧
        ∀ p ∈ (handle_new_game new_questions now msg_id event_id room player).players,
          p.is_host = false → p.team = none ∧ p.is_spectator = false) := by
  constructor
  · intro hnh
    simp [handle_new_game, hnh]
  · intro hh
    have hrun :
        handle_new_game new_questions now msg_id event_id room player =
          reset_game new_questions now msg_id event_id none room := by
      simp [handle_new_game, hh]
    rw [hrun]
    refine ⟨?_, ?_, ?_, ?_, ?_, ?_, ?_, ?_, ?_, ?_, ?_, ?_, ?_, ?_⟩ <;>
      first
      | (intro p hp hph
         simp only [reset_game, cleanup_generated_questions_file, reset_captain_state,
           broadcast_and_persist, mark_state_changed] at hp
         by_cases hsrc : room.question_source = .catalog <;>
           simp only [hsrc, if_pos, if_neg, ite_true, ite_false, reduceIte,
             List.mem_map] at hp <;>
           · obtain ⟨q, hq, rfl⟩ := hp
             by_cases hqh : q.is_host = true <;> simp_all)
      | (by_cases hsrc : room.question_source = .catalog <;>
           simp [reset_game, cleanup_generated_questions_file, reset_captain_state,
             broadcast_and_persist, mark_state_changed, hsrc])

/-- Closed instance of the C10 theorem: the non-host no-op and the forced
lobby reset from a live question phase. -/
theorem new_game_resets_in_any_phase_witness :
    handle_new_game [] 9000 "m-1" "e-1" questionRoom samplePlayer = questionRoom ∧
      (handle_new_game [] 9000 "m-1" "e-1" questionRoom sampleHost).phase = .lobby :=
  ⟨(new_game_resets_in_any_phase [] 9000 "m-1" "e-1" questionRoom samplePlayer).1 rfl,
   ((new_game_resets_in_any_phase [] 9000 "m-1" "e-1" questionRoom sampleHost).2 rfl).1⟩

/-- Resuming from a host-reconnect pause never changes the players list. -/
theorem resume_preserves_players (now : Int) (room : Room) :
    (resume_after_host_reconnect now room).players = room.players := by
  cases h : room.paused_state with
  | none =>
    simp [resume_after_host_reconnect, h, broadcast_and_persist, mark_state_changed]
  | some snapshot =>
    cases hp : snapshot.phase <;>
      simp [resume_after_host_reconnect, h, hp, schedule_phase_timer,
        broadcast_and_persist, mark_state_changed]

/-- A duplicate found by player token is one of the players in the room. -/
theorem duplicate_by_token_mem {room : Room} {ctx : JoinCtx} {dup : Player}
    (h : duplicate_by_token room ctx = some dup) : dup ∈ room.players := by
  unfold duplicate_by_token at h
  cases hpt : ctx.player_token with
  | none => rw [hpt] at h; exact Option.noConfusion h
  | some t =>
    simp only [hpt] at h
    cases hla : lookupAssoc room.player_tokens t with
    | none => simp only [hla] at h; exact Option.noConfusion h
    | some pid =>
      simp only [hla] at h
      unfold find_player at h
      exact List.mem_of_find?_eq_some h

/-- A duplicate found by identity key is one of the players in the room. -/
theorem duplicate_by_identity_mem {room : Room} {ctx : JoinCtx} {dup : Player}
    (h : duplicate_by_identity room ctx = some dup) : dup ∈ room.players := by
  unfold duplicate_by_identity at h
  cases hk : ctx.identity_key with
  | none => rw [hk] at h; exact Option.noConfusion h
  | some k =>
    rw [hk] at h
    exact List.mem_of_find?_eq_some h

/-- A duplicate found by token or identity is one of the players in the
room. -/
theorem find_duplicate_player_mem {room : Room} {ctx : JoinCtx} {dup : Player}
    (h : find_duplicate_player room ctx = some dup) : dup ∈ room.players := by
  unfold find_duplicate_player at h
  cases ht : duplicate_by_token room ctx with
  | some p =>
    rw [ht] at h
    cases h
    exact duplicate_by_token_mem ht
  | none =>
    rw [ht] at h
    exact duplicate_by_identity_mem h

/-- C7: a join whose player token or identity key matches an existing
connection with the same host role performs a handoff: the old socket is
closed with code 4002, the connected frame carries the peer id and player
token of the existing seat, the new socket is bound to that peer id, and
the players map keeps the same number of entries. -/
theorem duplicate_join_handoff (hash_fn : String → String)
    (uniquify : Room → String → Option String → String) (fresh_token : String)
    (refresh_captain_progress : Room → Room) (now : Int) (room : Room) (ctx : JoinCtx)
    (dup : Player) (hdup : find_duplicate_player room ctx = some dup)
    (hrole : decide (ctx.host_token ≠ "") = dup.is_host) :
    (handle_join_locked hash_fn uniquify fresh_token refresh_captain_progress now room ctx).1 =
        .handoff dup.websocket 4002
          { peerId := dup.peer_id
            roomId := room.room_id
            isHost := dup.is_host
            isSpectator := dup.is_spectator
            assignedTeam := if room.phase ≠ .lobby then dup.team else none
            playerToken := dup.player_token } ∧
      (handle_join_locked hash_fn uniquify fresh_token refresh_captain_progress now room ctx).2.players.length
        = room.players.length ∧
      ∃ p ∈ (handle_join_locked hash_fn uniquify fresh_token refresh_captain_progress now room ctx).2.players,
        p.peer_id = dup.peer_id ∧ p.websocket = ctx.ws := by
  have hmem : dup ∈ room.players := find_duplicate_player_mem hdup
  unfold handle_join_locked
  rw [hdup]
  simp only [hrole, ne_eq, not_true_eq_false, if_false, ite_not]
  refine ⟨?_, ?_, ?_⟩
  · simp
  · by_cases hres :
      dup.is_host = true ∧ room.phase = .hostReconnect ∧ room.host_reconnect_ends_at ≠ none <;>
      simp [hres, resume_preserves_players]
  · by_cases hres :
      dup.is_host = true ∧ room.phase = .hostReconnect ∧ room.host_reconnect_ends_at ≠ none
    · simp only [if_pos hres, resume_preserves_players, List.mem_map]
      exact ⟨_, ⟨dup, hmem, rfl⟩, by simp, by simp⟩
    · simp only [if_neg hres, List.mem_map]
      exact ⟨_, ⟨dup, hmem, rfl⟩, by simp, by simp⟩

/-- A concrete join request reclaiming the existing seat of samplePlayer by
player token and identity key, without a host token. -/
def sampleJoinCtx : JoinCtx :=
  { requested_name := "Игрок"
    host_token := ""
    player_token := some "token-abcdef12345"
    room_password := ""
    identity_key := some "acct:7"
    auth_user_id := some 7
    avatar := none
    profile_frame := none
    mascot_cat := none
    mascot_dog := none
    victory_front := none
    victory_back := none
    fresh_peer_id := "peer-new"
    ws := 9 }

/-- Closed instance of the C7 theorem: reclaiming samplePlayer in
sampleRoom hands the seat off with close code 4002, the same peer id and
player token, and an unchanged player count, binding the new socket. -/
theorem duplicate_join_handoff_witness :
    (handle_join_locked (fun s => s) (fun _ n _ => n) "fresh-tok" (fun r => r) 0 sampleRoom
        sampleJoinCtx).1 =
      .handoff samplePlayer.websocket 4002
        { peerId := samplePlayer.peer_id
          roomId := sampleRoom.room_id
          isHost := samplePlayer.is_host
          isSpectator := samplePlayer.is_spectator
          assignedTeam := if sampleRoom.phase ≠ .lobby then samplePlayer.team else none
          playerToken := samplePlayer.player_token } ∧
      (handle_join_locked (fun s => s) (fun _ n _ => n) "fresh-tok" (fun r => r) 0 sampleRoom
          sampleJoinCtx).2.players.length = sampleRoom.players.length ∧
      ∃ p ∈ (handle_join_locked (fun s => s) (fun _ n _ => n) "fresh-tok" (fun r => r) 0 sampleRoom
          sampleJoinCtx).2.players,
        p.peer_id = samplePlayer.peer_id ∧ p.websocket = sampleJoinCtx.ws :=
  duplicate_join_handoff (fun s => s) (fun _ n _ => n) "fresh-tok" (fun r => r) 0 sampleRoom
    sampleJoinCtx samplePlayer (by decide) (by decide)

/-- Dropping the last-n slice is the identity on lists within the bound. -/
theorem takeLast_of_le {α : Type} {n : Nat} {l : List α} (h : l.length ≤ n) :
    takeLast n l = l := by
  unfold takeLast
  rw [Nat.sub_eq_zero_of_le h, List.drop_zero]

/-- Mapping a function that fixes every element is the identity. -/
theorem map_eq_self_of {α : Type} {l : List α} {f : α → α} (h : ∀ x ∈ l, f x = x) :
    l.map f = l := by
  induction l with
  | nil => rfl
  | cons a t ih =>
    simp only [List.map_cons]
    rw [h a (List.mem_cons_self a t), ih (fun x hx => h x (List.mem_cons_of_mem a hx))]

/-- Filtering with a predicate every element satisfies is the identity. -/
theorem filter_eq_self_of {α : Type} {l : List α} {p : α → Bool}
    (h : ∀ x ∈ l, p x = true) : l.filter p = l := by
  induction l with
  | nil => rfl
  | cons a t ih =>
    rw [List.filter_cons, if_pos (h a (List.mem_cons_self a t)),
      ih (fun x hx => h x (List.mem_cons_of_mem a hx))]

/-- The states that the runtime actually produces and persists: questions
are provisioned non-empty, the config fields are already normalized, the
histories respect their eviction bounds, set representations are canonical,
counters are non-negative, recorded captains are non-empty ids, team names
are already sanitized, used names are already normalized, and the state
version is positive. Each field is a fixed-point equation of the exact
normalization apply_snapshot performs. -/
structure WellFormedRoom (supported : List String) (default_topic : String)
    (room : Room) : Prop where
  topic_norm : normalize_topic supported default_topic room.topic = room.topic
  count_clamped : clamp_question_count room.question_count = room.question_count
  questions_nonempty : room.questions ≠ []
  chat_bounded : room.chat.length ≤ 100
  qhist_bounded : room.question_history.length ≤ 200
  ehist_bounded : room.event_history.length ≤ 300
  strikes_clamped :
    room.chat_moderation_strikes.map (fun kv => (kv.1, max 0 kv.2)) =
      room.chat_moderation_strikes
  captain_a : optNonempty room.captains.A = room.captains.A
  captain_b : optNonempty room.captains.B = room.captains.B
  votes_a : sanitize_vote_map room.captain_votes.A = room.captain_votes.A
  votes_b : sanitize_vote_map room.captain_votes.B = room.captain_votes.B
  name_a : sanitize_team_name room.team_names.A "Команда A" = room.team_names.A
  name_b : sanitize_team_name room.team_names.B "Команда B" = room.team_names.B
  requesters_canonical : sortDedupStr room.skip_requesters = room.skip_requesters
  requesters_nonempty : ∀ p ∈ room.skip_requesters, p ≠ ""
  used_canonical : sortDedupStr room.used_team_names = room.used_team_names
  used_normalized : ∀ n ∈ room.used_team_names, normalize_team_name n = n
  used_nontrivial : ∀ n ∈ room.used_team_names, py_strip n ≠ ""
  version_pos : 1 ≤ room.state_version

/-- C9 (amended): for every well-formed room state, applying apply_snapshot
to the snapshot produced by serialize_snapshot of that room restores the
room exactly (sockets and timers are outside the persisted state): every
persisted field, the state version included, comes back equal. -/
theorem snapshot_roundtrip (supported : List String) (default_topic : String)
    (gen_questions : List Question) (room : Room)
    (wf : WellFormedRoom supported default_topic room) :
    apply_snapshot supported default_topic gen_questions room (serialize_snapshot room) =
      room := by
  have hversion := wf.version_pos
  apply Room_ext <;>
    simp [apply_snapshot, serialize_snapshot, wf.topic_norm, wf.count_clamped,
      wf.questions_nonempty, wf.strikes_clamped, wf.captain_a, wf.captain_b,
      wf.votes_a, wf.votes_b, wf.name_a, wf.name_b, takeLast_of_le,
      wf.chat_bounded, wf.qhist_bounded, wf.ehist_bounded]
  all_goals first
    | (intro h; exact h.symm)
    | (rw [wf.requesters_canonical,
        filter_eq_self_of (fun x hx => by simp [wf.requesters_nonempty x hx]),
        wf.requesters_canonical])
    | (rw [wf.used_canonical,
        filter_eq_self_of (fun x hx => by simp [wf.used_nontrivial x hx]),
        map_eq_self_of wf.used_normalized, wf.used_canonical])
    | (split_ifs <;> omega)

/-- Closed instance of the C9 theorem: the sample room is well-formed and
survives the serialize-apply round trip unchanged. -/
theorem snapshot_roundtrip_witness :
    apply_snapshot ["geo"] "geo" [] sampleRoom (serialize_snapshot sampleRoom) =
      sampleRoom :=
  snapshot_roundtrip ["geo"] "geo" [] sampleRoom (by constructor <;> decide)

/-- A room state whose team-A name carries a trailing space, as the
truncation inside sanitize_team_name can produce during team naming. -/
def badRoom : Room :=
  { sampleRoom with team_names := { A := "a ", B := "Команда B" } }

/-- C9 (counterexample): the claim over every room state fails; for a room
whose team-A name ends in a space, the round trip re-sanitizes the name and
the restored value differs. -/
theorem snapshot_roundtrip_fails_unconditionally :
    (apply_snapshot ["geo"] "geo" [] badRoom (serialize_snapshot badRoom)).team_names.A ≠
      badRoom.team_names.A := by
  decide

end QuizBattle
